import Mathlib

/-!
Shallow embedding of `src/index.ts` of the minimax-music MCP server.

The interesting code is the `generate_audio` tool handler (lines 111-197)
together with the helper `checkGenerationStatus` (lines 85-108).  We model:

* the loosely-typed argument bag of a tool invocation as a record of
  `Option String` fields (the handler coerces every scalar it uses with
  `String(...)`, so string values capture the reachable behaviour; a `none`
  field means the key is absent from the bag);
* JavaScript truthiness of a string-or-undefined value (`undefined` and the
  empty string are falsy, every other string truthy);
* the network as a pure oracle `net : HttpRequest -> HttpResponse`; the
  handler returns, besides its `Except` outcome, the list of HTTP requests it
  issued, so that claims about "no network call is attempted" and about the
  shape of the issued request can be stated.
-/

set_option autoImplicit false

namespace MinimaxMusic

/-- JavaScript string-prefix test (`String.prototype.startsWith`) on the
underlying character lists, written with an explicitly structural
recursion so that all proofs and witnesses reduce in the kernel. -/
def listIsPre : List Char → List Char → Bool
  | [], _ => true
  | _ :: _, [] => false
  | a :: as, b :: bs => a == b && listIsPre as bs

/-- Models JavaScript `s.startsWith(pre)`. -/
def jsStartsWith (s pre : String) : Bool :=
  listIsPre pre.data s.data

/-- Models JavaScript `s.endsWith(suf)` (used only to state claims about
paired `##` wrapping; the source itself never calls `endsWith`). -/
def jsEndsWith (s suf : String) : Bool :=
  listIsPre suf.data.reverse s.data.reverse

/-- JavaScript truthiness of a `string | undefined` value: `undefined` and
`""` are falsy, all other strings truthy. -/
def truthy : Option String → Bool
  | none => false
  | some s => !(s == "")

/-- Models the JavaScript expression `x || d` where `x : string | undefined`:
the default `d` is taken when `x` is `undefined` or the empty string. -/
def jsOr (x : Option String) (d : String) : String :=
  match x with
  | none => d
  | some s => if s == "" then d else s

/-- The argument bag of a `generate_audio` tool invocation
(`request.params.arguments`); a `none` field models an absent key. -/
structure Args where
  model : Option String
  reference_audio_url : Option String
  prompt : Option String
  api_key : Option String
  generation_id : Option String
  deriving DecidableEq

/-- The `AudioGenerationParams` record built at `src/index.ts:127-133`. -/
structure AudioGenerationParams where
  model : Option String
  reference_audio_url : Option String
  prompt : String
  api_key : String
  generation_id : Option String
  deriving DecidableEq

/-- The `GenerationPayload` wire record (`src/index.ts:20-24`): a `none`
`reference_audio_url` means the key is omitted from the JSON body. -/
structure GenerationPayload where
  model : String
  prompt : String
  reference_audio_url : Option String
  deriving DecidableEq

/-- Decoded JSON values, as returned by `response.json()`. -/
inductive Json where
  | null
  | bool (b : Bool)
  | num (n : Int)
  | str (s : String)
  | arr (elems : List Json)
  | obj (fields : List (String × Json))

/-- Models JavaScript `k in data` for a decoded JSON value: only objects have
(string-named own) keys; `'status' in someArray` is `false`. -/
def hasKey (data : Json) (k : String) : Bool :=
  match data with
  | Json.obj fields => fields.any (fun f => f.1 == k)
  | _ => false

/-- Models JavaScript property access `data[k]` on a decoded JSON value,
returning `Json.null` for a missing key (the handler only reads keys whose
presence was validated, so the default is never observable). -/
def getKey (data : Json) (k : String) : Json :=
  match data with
  | Json.obj fields =>
    match fields.find? (fun f => f.1 == k) with
    | some f => f.2
    | none => Json.null
  | _ => Json.null

/-- Models JavaScript truthiness of a decoded JSON value (`!data`):
`null`, `false`, `0` and `""` are falsy; objects and arrays are truthy. -/
def jsTruthyJson : Json → Bool
  | Json.null => false
  | Json.bool b => b
  | Json.num n => !(n == 0)
  | Json.str s => !(s == "")
  | Json.arr _ => true
  | Json.obj _ => true

/-- Models JavaScript `typeof data === 'object'` for a decoded JSON value:
true for objects, arrays and `null`. -/
def jsIsObjectType : Json → Bool
  | Json.null => true
  | Json.arr _ => true
  | Json.obj _ => true
  | _ => false

/-- The response-shape validation at `src/index.ts:103` and `173`:
`data && typeof data === 'object' && 'status' in data && 'id' in data`. -/
def validShape (data : Json) : Bool :=
  jsTruthyJson data && jsIsObjectType data && hasKey data "status" && hasKey data "id"

/-- HTTP method of an outgoing `fetch`. -/
inductive Method where
  | get
  | post
  deriving DecidableEq

/-- An outgoing `fetch` call: the full URL (the poll path appends its query
string), the two headers the code sets, and the JSON body if any. -/
structure HttpRequest where
  method : Method
  url : String
  authorization : String
  contentType : String
  body : Option GenerationPayload

/-- The part of a `fetch` response the handler inspects. -/
structure HttpResponse where
  ok : Bool
  status : Nat
  body : Json

/-- The only error code the source ever throws (`ErrorCode.InvalidRequest`). -/
inductive ErrorCode where
  | invalidRequest
  deriving DecidableEq

/-- An `McpError`: the protocol error code plus a human-readable message;
the source distinguishes its five failure kinds only by message text. -/
structure McpError where
  code : ErrorCode
  message : String
  deriving DecidableEq

/-- The spec calls this error kind `MissingParameter` (`src/index.ts:116`). -/
def missingPromptError : McpError :=
  { code := ErrorCode.invalidRequest
    message := "Missing required parameter: prompt" }

/-- The spec calls this error kind `MissingCredential` (`src/index.ts:121-124`). -/
def apiKeyNotFoundError : McpError :=
  { code := ErrorCode.invalidRequest
    message := "API key not found. Please provide it in claude_desktop_config.json or as a parameter" }

/-- The spec calls this error kind `InvalidRemoteResponse`
(`src/index.ts:104` and `174`). -/
def invalidResponseError : McpError :=
  { code := ErrorCode.invalidRequest
    message := "Invalid response format from server" }

/-- The fixed remote endpoint (`src/index.ts:86` and `140`). -/
def url : String := "https://api.aimlapi.com/v2/generate/audio"

/-- The fixed default reference audio URL (`src/index.ts:153`). -/
def defaultReferenceAudioUrl : String :=
  "https://tand-dev.github.io/audio-hosting/spinning-head-271171.mp3"

/-- The Authorization header value (`src/index.ts:90` and `159`):
`apiKey.startsWith('Bearer ') ? apiKey : 'Bearer ' + apiKey`. -/
def authHeader (apiKey : String) : String :=
  if jsStartsWith apiKey "Bearer " then apiKey else "Bearer " ++ apiKey

/-- Resolution of the API key (`src/index.ts:119`):
`args.api_key ? String(args.api_key) : process.env.AIML_API_KEY`. -/
def resolveApiKey (a : Args) (envKey : Option String) : Option String :=
  if truthy a.api_key then a.api_key else envKey

/-- Normalization into `AudioGenerationParams` (`src/index.ts:127-133`);
`key` is the already-resolved API key. -/
def normalizeParams (a : Args) (key : String) : AudioGenerationParams :=
  { prompt := a.prompt.getD ""
    api_key := key
    model := some (if truthy a.model then a.model.getD "" else "minimax-music")
    reference_audio_url := if truthy a.reference_audio_url then a.reference_audio_url else none
    generation_id := if truthy a.generation_id then a.generation_id else none }

/-- The prompt-wrapping step (`src/index.ts:142-144`): wrap in `##...##`
when the model is `"minimax-music"` and the prompt does not already start
with `"##"` (the source checks only the prefix, never the suffix). -/
def wrapPrompt (model : Option String) (prompt : String) : String :=
  if model == some "minimax-music" && !(jsStartsWith prompt "##") then
    "##" ++ prompt ++ "##"
  else
    prompt

/-- The submission payload (`src/index.ts:146-154`): `reference_audio_url`
is included (with its default) exactly when the model is `"minimax-music"`. -/
def mkPayload (params : AudioGenerationParams) : GenerationPayload :=
  { model := jsOr params.model "minimax-music"
    prompt := wrapPrompt params.model params.prompt
    reference_audio_url :=
      if params.model == some "minimax-music" then
        some (jsOr params.reference_audio_url defaultReferenceAudioUrl)
      else
        none }

/-- The POST request of the submit path (`src/index.ts:156-163`). -/
def mkSubmitRequest (params : AudioGenerationParams) : HttpRequest :=
  { method := Method.post
    url := url
    authorization := authHeader params.api_key
    contentType := "application/json"
    body := some (mkPayload params) }

/-- The GET request of the poll path (`src/index.ts:87-93`): the generation
id travels in the query string of the URL. -/
def mkPollRequest (generationId apiKey : String) : HttpRequest :=
  { method := Method.get
    url := url ++ "?generation_id=" ++ generationId
    authorization := authHeader apiKey
    contentType := "application/json"
    body := none }

/-- Outcome of `checkGenerationStatus` (`src/index.ts:85-108`), paired with
the list of HTTP requests it issued. -/
def checkGenerationStatus (generationId apiKey : String)
    (net : HttpRequest → HttpResponse) : Except McpError Json × List HttpRequest :=
  let req := mkPollRequest generationId apiKey
  let response := net req
  if response.ok = false then
    (Except.error
      { code := ErrorCode.invalidRequest
        message := "Failed to check generation status: HTTP " ++ toString response.status }, [req])
  else if validShape response.body = false then
    (Except.error invalidResponseError, [req])
  else
    (Except.ok response.body, [req])

/-- The fixed guidance message of a successful submission (`src/index.ts:182`). -/
def generationStartedMessage : String :=
  "Generation started! Use this generation_id to check status in subsequent calls."

/-- The fixed next-step message of a successful submission (`src/index.ts:183`). -/
def nextStepMessage : String :=
  "Call this tool again with the same API key and this generation_id to check status."

/-- The success payload of the submit path (`src/index.ts:178-185`). -/
structure SubmitToolResult where
  status : Json
  id : Json
  message : String
  next_step : String

/-- The `toolResult` returned to the caller: the raw validated response on
the poll path, the trimmed four-field record on the submit path. -/
inductive ToolResult where
  | poll (response : Json)
  | submit (r : SubmitToolResult)

/-- The submit path of the handler (`src/index.ts:140-185`), after
normalization: issue the POST, check HTTP success, validate the shape, and
build the trimmed success payload. -/
def submitGeneration (params : AudioGenerationParams)
    (net : HttpRequest → HttpResponse) : Except McpError ToolResult × List HttpRequest :=
  let req := mkSubmitRequest params
  let response := net req
  if response.ok = false then
    (Except.error
      { code := ErrorCode.invalidRequest
        message := "Failed to generate audio: HTTP " ++ toString response.status }, [req])
  else if validShape response.body = false then
    (Except.error invalidResponseError, [req])
  else
    (Except.ok (ToolResult.submit
      { status := getKey response.body "status"
        id := getKey response.body "id"
        message := generationStartedMessage
        next_step := nextStepMessage }), [req])

/-- The poll path of the handler (`src/index.ts:135-137`): run
`checkGenerationStatus` and return its value as the `toolResult`. -/
def pollGeneration (generationId apiKey : String)
    (net : HttpRequest → HttpResponse) : Except McpError ToolResult × List HttpRequest :=
  match checkGenerationStatus generationId apiKey net with
  | (Except.error e, reqs) => (Except.error e, reqs)
  | (Except.ok data, reqs) => (Except.ok (ToolResult.poll data), reqs)

/-- The normalized parameter record of an invocation, with the API key
resolved exactly as the handler resolves it (`src/index.ts:119,127-133`). -/
def normParams (a : Args) (envKey : Option String) : AudioGenerationParams :=
  normalizeParams a ((resolveApiKey a envKey).getD "")

/-- The `generate_audio` branch of the CallTool handler
(`src/index.ts:112-185`).  `args` is `request.params.arguments` (`none`
models an absent/non-object bag), `envKey` is `process.env.AIML_API_KEY`,
and `net` the network oracle.  Returns the outcome together with the list
of HTTP requests issued during the invocation. -/
def handleGenerateAudio (args : Option Args) (envKey : Option String)
    (net : HttpRequest → HttpResponse) : Except McpError ToolResult × List HttpRequest :=
  match args with
  | none => (Except.error missingPromptError, [])
  | some a =>
    match a.prompt with
    | none => (Except.error missingPromptError, [])
    | some _ =>
      if truthy (resolveApiKey a envKey) = false then
        (Except.error apiKeyNotFoundError, [])
      else
        let params := normParams a envKey
        match params.generation_id with
        | some gid => pollGeneration gid params.api_key net
        | none => submitGeneration params net

/-! ### Helper lemmas -/

theorem listIsPre_self_append (l r : List Char) : listIsPre l (l ++ r) = true := by
  induction l with
  | nil => rfl
  | cons a as ih => simp [listIsPre, ih]

theorem listIsPre_append_both (p q r : List Char) :
    listIsPre (p ++ q) (p ++ r) = listIsPre q r := by
  induction p with
  | nil => rfl
  | cons a as ih => simp [listIsPre, ih]

theorem listIsPre_of_append (p q l : List Char)
    (h : listIsPre (p ++ q) l = true) : listIsPre p l = true := by
  induction p generalizing l with
  | nil => rfl
  | cons a as ih =>
    cases l with
    | nil => simp [listIsPre] at h
    | cons b bs =>
      simp only [List.cons_append, listIsPre, Bool.and_eq_true] at h ⊢
      exact ⟨h.1, ih bs h.2⟩

theorem string_data_append (s t : String) : (s ++ t).data = s.data ++ t.data := rfl

theorem jsStartsWith_append (s t : String) : jsStartsWith (s ++ t) s = true := by
  simp only [jsStartsWith, string_data_append]
  exact listIsPre_self_append s.data t.data

theorem jsEndsWith_append (s t : String) : jsEndsWith (s ++ t) t = true := by
  simp only [jsEndsWith, string_data_append, List.reverse_append]
  exact listIsPre_self_append t.data.reverse s.data.reverse

theorem handle_args_absent (envKey : Option String) (net : HttpRequest → HttpResponse) :
    handleGenerateAudio none envKey net = (Except.error missingPromptError, []) := rfl

theorem handle_prompt_absent (a : Args) (envKey : Option String)
    (net : HttpRequest → HttpResponse) (h : a.prompt = none) :
    handleGenerateAudio (some a) envKey net = (Except.error missingPromptError, []) := by
  simp [handleGenerateAudio, h]

theorem handle_key_unavailable (a : Args) (envKey : Option String)
    (net : HttpRequest → HttpResponse) (p : String) (hp : a.prompt = some p)
    (hk : truthy (resolveApiKey a envKey) = false) :
    handleGenerateAudio (some a) envKey net = (Except.error apiKeyNotFoundError, []) := by
  simp [handleGenerateAudio, hp, hk]

theorem handle_poll_eq (a : Args) (envKey : Option String)
    (net : HttpRequest → HttpResponse) (p g : String) (hp : a.prompt = some p)
    (hk : truthy (resolveApiKey a envKey) = true)
    (hg : a.generation_id = some g) (hgne : g ≠ "") :
    handleGenerateAudio (some a) envKey net =
      pollGeneration g ((resolveApiKey a envKey).getD "") net := by
  have htr : truthy (some g) = true := by simp [truthy, hgne]
  simp [handleGenerateAudio, hp, hk, normParams, normalizeParams, hg, htr]

theorem handle_submit_eq (a : Args) (envKey : Option String)
    (net : HttpRequest → HttpResponse) (p : String) (hp : a.prompt = some p)
    (hk : truthy (resolveApiKey a envKey) = true)
    (hg : truthy a.generation_id = false) :
    handleGenerateAudio (some a) envKey net = submitGeneration (normParams a envKey) net := by
  simp [handleGenerateAudio, hp, hk, normParams, normalizeParams, hg]

theorem checkGenerationStatus_requests (g k : String) (net : HttpRequest → HttpResponse) :
    (checkGenerationStatus g k net).2 = [mkPollRequest g k] := by
  unfold checkGenerationStatus
  by_cases h1 : (net (mkPollRequest g k)).ok = false
  · simp [h1]
  · by_cases h2 : validShape (net (mkPollRequest g k)).body = false
    · simp [h1, h2]
    · simp [h1, h2]

theorem pollGeneration_requests (g k : String) (net : HttpRequest → HttpResponse) :
    (pollGeneration g k net).2 = [mkPollRequest g k] := by
  unfold pollGeneration
  cases hc : checkGenerationStatus g k net with
  | mk res reqs =>
    have hr : reqs = [mkPollRequest g k] := by
      have h := checkGenerationStatus_requests g k net
      rw [hc] at h
      exact h
    cases res <;> simpa using hr

theorem submitGeneration_requests (params : AudioGenerationParams)
    (net : HttpRequest → HttpResponse) :
    (submitGeneration params net).2 = [mkSubmitRequest params] := by
  unfold submitGeneration
  by_cases h1 : (net (mkSubmitRequest params)).ok = false
  · simp [h1]
  · by_cases h2 : validShape (net (mkSubmitRequest params)).body = false
    · simp [h1, h2]
    · simp [h1, h2]

theorem submitGeneration_http_error (params : AudioGenerationParams)
    (net : HttpRequest → HttpResponse) (s : Nat) (b : Json)
    (hnet : ∀ r, net r = { ok := false, status := s, body := b }) :
    submitGeneration params net =
      (Except.error { code := ErrorCode.invalidRequest
                      message := "Failed to generate audio: HTTP " ++ toString s },
       [mkSubmitRequest params]) := by
  unfold submitGeneration
  simp [hnet]

theorem checkGenerationStatus_http_error (g k : String)
    (net : HttpRequest → HttpResponse) (s : Nat) (b : Json)
    (hnet : ∀ r, net r = { ok := false, status := s, body := b }) :
    checkGenerationStatus g k net =
      (Except.error { code := ErrorCode.invalidRequest
                      message := "Failed to check generation status: HTTP " ++ toString s },
       [mkPollRequest g k]) := by
  unfold checkGenerationStatus
  simp [hnet]

theorem submitGeneration_invalid_shape (params : AudioGenerationParams)
    (net : HttpRequest → HttpResponse) (resp : HttpResponse)
    (hok : resp.ok = true) (hbad : validShape resp.body = false)
    (hnet : ∀ r, net r = resp) :
    submitGeneration params net = (Except.error invalidResponseError, [mkSubmitRequest params]) := by
  unfold submitGeneration
  simp [hnet, hok, hbad]

theorem pollGeneration_invalid_shape (g k : String)
    (net : HttpRequest → HttpResponse) (resp : HttpResponse)
    (hok : resp.ok = true) (hbad : validShape resp.body = false)
    (hnet : ∀ r, net r = resp) :
    pollGeneration g k net = (Except.error invalidResponseError, [mkPollRequest g k]) := by
  have hc : checkGenerationStatus g k net = (Except.error invalidResponseError, [mkPollRequest g k]) := by
    unfold checkGenerationStatus
    simp [hnet, hok, hbad]
  unfold pollGeneration
  rw [hc]

/-! ### Concrete fixtures used by counterexamples and witnesses -/

/-- A network oracle that always answers with a well-formed success body. -/
def okNet : HttpRequest → HttpResponse := fun _ =>
  { ok := true, status := 200
    body := Json.obj [("status", Json.str "queued"), ("id", Json.str "g1")] }

/-- A network oracle that always answers HTTP 500. -/
def failNet : HttpRequest → HttpResponse := fun _ =>
  { ok := false, status := 500, body := Json.null }

/-- A network oracle that always answers HTTP 200 with a body missing the
required keys. -/
def badShapeNet : HttpRequest → HttpResponse := fun _ =>
  { ok := true, status := 200, body := Json.obj [("foo", Json.num 1)] }

/-- Argument bag whose `prompt` key is present but holds the empty string. -/
def emptyPromptArgs : Args :=
  { model := none, reference_audio_url := none, prompt := some ""
    api_key := some "k", generation_id := none }

/-- Argument bag with no `prompt` key at all. -/
def absentPromptArgs : Args :=
  { model := none, reference_audio_url := none, prompt := none
    api_key := some "k", generation_id := none }

/-- Argument bag whose prompt starts with `##` but does not end with it. -/
def halfWrappedArgs : Args :=
  { model := some "minimax-music", reference_audio_url := none
    prompt := some "##hello", api_key := some "k", generation_id := none }

/-- Argument bag with the plain prompt `"hello"`. -/
def helloArgs : Args :=
  { model := some "minimax-music", reference_audio_url := none
    prompt := some "hello", api_key := some "k", generation_id := none }

/-- Argument bag with the already-wrapped prompt `"##hello##"`. -/
def wrappedHelloArgs : Args :=
  { model := some "minimax-music", reference_audio_url := none
    prompt := some "##hello##", api_key := some "k", generation_id := none }

/-- Argument bag selecting the poll path via `generation_id="abc123"`. -/
def pollArgs : Args :=
  { model := none, reference_audio_url := none, prompt := some "x"
    api_key := some "k", generation_id := some "abc123" }

/-- Argument bag of the end-to-end submit example of the spec. -/
def submitArgs : Args :=
  { model := none, reference_audio_url := none, prompt := some "test song"
    api_key := some "k1", generation_id := none }

/-- Argument bag with a present-but-empty `api_key`. -/
def emptyKeyArgs : Args :=
  { model := none, reference_audio_url := none, prompt := some "x"
    api_key := some "", generation_id := none }

/-- Argument bag with no `api_key` key. -/
def noKeyArgs : Args :=
  { model := none, reference_audio_url := none, prompt := some "x"
    api_key := none, generation_id := none }

/-- A sample normalized parameter record, for instantiating lemmas. -/
def sampleParams : AudioGenerationParams := normParams helloArgs none

/-! ### Claims -/

/-- C1 counterexample: with `prompt` present but equal to the empty string
(and an API key provided), the handler does not fail with the
MissingParameter error and it does attempt a network call, contradicting
the claim that any input lacking a non-empty prompt fails with
`MissingParameter` and no network call is attempted. -/
theorem C1_counterexample :
    (handleGenerateAudio (some emptyPromptArgs) none okNet).1 ≠
      Except.error missingPromptError ∧
    (handleGenerateAudio (some emptyPromptArgs) none okNet).2 ≠ [] := by
  have hres : (handleGenerateAudio (some emptyPromptArgs) none okNet).1 =
      Except.ok (ToolResult.submit
        { status := Json.str "queued", id := Json.str "g1"
          message := generationStartedMessage, next_step := nextStepMessage }) := rfl
  have hreq : (handleGenerateAudio (some emptyPromptArgs) none okNet).2 =
      [mkSubmitRequest (normParams emptyPromptArgs none)] := rfl
  constructor
  · rw [hres]
    intro h
    exact Except.noConfusion h
  · rw [hreq]
    intro h
    exact List.noConfusion h

/-- C1 (amended): the handler fails with the MissingParameter error, with
no network call attempted, when the argument bag is absent or lacks the
`prompt` key; a present-but-empty prompt is accepted. -/
theorem C1_missing_prompt (a : Args) (envKey : Option String)
    (net : HttpRequest → HttpResponse) (h : a.prompt = none) :
    handleGenerateAudio (some a) envKey net = (Except.error missingPromptError, []) ∧
    handleGenerateAudio none envKey net = (Except.error missingPromptError, []) :=
  ⟨handle_prompt_absent a envKey net h, handle_args_absent envKey net⟩

/-- C1 witness: the amended theorem applied to a concrete bag without a
`prompt` key. -/
theorem C1_missing_prompt_witness :
    handleGenerateAudio (some absentPromptArgs) none okNet =
      (Except.error missingPromptError, []) :=
  (C1_missing_prompt absentPromptArgs none okNet rfl).1

/-- C2 counterexample: for the minimax-music submission with caller prompt
`"##hello"` (which starts with `##` but is not wrapped in a paired marker,
as it does not end with `##`), the payload prompt is `"##hello"` unchanged:
it does not end with `##`, so the payload prompt is not wrapped in a paired
delimiter marker, and no wrapping was added although the caller's prompt
was not already so wrapped. -/
theorem C2_counterexample :
    (handleGenerateAudio (some halfWrappedArgs) none okNet).2 =
      [mkSubmitRequest (normParams halfWrappedArgs none)] ∧
    (mkPayload (normParams halfWrappedArgs none)).prompt = "##hello" ∧
    jsEndsWith (mkPayload (normParams halfWrappedArgs none)).prompt "##" = false ∧
    jsEndsWith "##hello" "##" = false :=
  ⟨rfl, rfl, rfl, rfl⟩

/-- C2 (amended): on the minimax-music submit path the `##` wrapping is
prepended and appended exactly when the caller's prompt does not already
START with `##` (the code checks only the prefix); consequently the payload
prompt always begins with `##`, but need not end with it. -/
theorem C2_wrap_rule (a : Args) (envKey : Option String)
    (net : HttpRequest → HttpResponse) (p : String)
    (hp : a.prompt = some p) (hk : truthy (resolveApiKey a envKey) = true)
    (hg : truthy a.generation_id = false)
    (hm : (normParams a envKey).model = some "minimax-music") :
    (handleGenerateAudio (some a) envKey net).2 =
      [mkSubmitRequest (normParams a envKey)] ∧
    (mkPayload (normParams a envKey)).prompt =
      (if jsStartsWith p "##" then p else "##" ++ p ++ "##") ∧
    jsStartsWith (mkPayload (normParams a envKey)).prompt "##" = true := by
  have hpp : (normParams a envKey).prompt = p := by
    simp [normParams, normalizeParams, hp]
  refine ⟨?_, ?_, ?_⟩
  · rw [handle_submit_eq a envKey net p hp hk hg]
    exact submitGeneration_requests _ net
  · rw [mkPayload, hm, hpp]
    by_cases hsw : jsStartsWith p "##" = true
    · simp [wrapPrompt, hsw]
    · simp [wrapPrompt, hsw]
  · rw [mkPayload, hm, hpp]
    by_cases hsw : jsStartsWith p "##" = true
    · simp [wrapPrompt, hsw]
    · simp only [wrapPrompt, Bool.not_eq_true] at hsw
      simp only [wrapPrompt, hsw]
      simpa using jsStartsWith_append "##" (p ++ "##")

/-- C2 witness: the amended theorem applied to the concrete prompt
`"hello"`, which does not start with `##` and is therefore wrapped. -/
theorem C2_wrap_rule_witness :
    (mkPayload (normParams helloArgs none)).prompt =
      (if jsStartsWith "hello" "##" then "hello" else "##" ++ "hello" ++ "##") :=
  (C2_wrap_rule helloArgs none okNet "hello" rfl rfl rfl rfl).2.1

/-- C4: on the minimax-music submit path the prompt `"hello"` yields
payload prompt `"##hello##"` and the prompt `"##hello##"` is left
unchanged, in both cases as the prompt of the single POST request issued;
moreover the wrapping transformation is idempotent. -/
theorem C4_wrapping_examples :
    (mkPayload (normParams helloArgs none)).prompt = "##hello##" ∧
    (handleGenerateAudio (some helloArgs) none okNet).2 =
      [mkSubmitRequest (normParams helloArgs none)] ∧
    (mkPayload (normParams wrappedHelloArgs none)).prompt = "##hello##" ∧
    (handleGenerateAudio (some wrappedHelloArgs) none okNet).2 =
      [mkSubmitRequest (normParams wrappedHelloArgs none)] ∧
    ∀ q : String,
      wrapPrompt (some "minimax-music") (wrapPrompt (some "minimax-music") q) =
        wrapPrompt (some "minimax-music") q := by
  refine ⟨rfl, rfl, rfl, rfl, ?_⟩
  intro q
  by_cases hsw : jsStartsWith q "##" = true
  · simp [wrapPrompt, hsw]
  · simp only [wrapPrompt, Bool.not_eq_true] at hsw
    simp only [wrapPrompt, hsw]
    have h2 : jsStartsWith ("##" ++ q ++ "##") "##" = true := by
      simpa using jsStartsWith_append "##" (q ++ "##")
    simp [h2]

/-- C3: per invocation (with a usable prompt and API key) exactly one
operation mode is selected.  When `generation_id` is present and non-empty
the handler issues the single GET poll request, which carries the
identifier in its query string, and never a POST; otherwise it issues the
single POST submit request. -/
theorem C3_mode_selection (a : Args) (envKey : Option String)
    (net : HttpRequest → HttpResponse) (p : String)
    (hp : a.prompt = some p) (hk : truthy (resolveApiKey a envKey) = true) :
    (∀ g, a.generation_id = some g → g ≠ "" →
      (handleGenerateAudio (some a) envKey net).2 =
        [mkPollRequest g ((resolveApiKey a envKey).getD "")] ∧
      (mkPollRequest g ((resolveApiKey a envKey).getD "")).method = Method.get ∧
      (mkPollRequest g ((resolveApiKey a envKey).getD "")).url =
        url ++ "?generation_id=" ++ g ∧
      ∀ r ∈ (handleGenerateAudio (some a) envKey net).2, r.method ≠ Method.post) ∧
    (truthy a.generation_id = false →
      (handleGenerateAudio (some a) envKey net).2 =
        [mkSubmitRequest (normParams a envKey)] ∧
      (mkSubmitRequest (normParams a envKey)).method = Method.post) := by
  constructor
  · intro g hg hgne
    have hreq : (handleGenerateAudio (some a) envKey net).2 =
        [mkPollRequest g ((resolveApiKey a envKey).getD "")] := by
      rw [handle_poll_eq a envKey net p g hp hk hg hgne]
      exact pollGeneration_requests _ _ net
    refine ⟨hreq, rfl, rfl, ?_⟩
    intro r hr
    rw [hreq] at hr
    rcases List.mem_singleton.mp hr with h
    rw [h]
    intro hcontra
    exact Method.noConfusion hcontra
  · intro hg
    refine ⟨?_, rfl⟩
    rw [handle_submit_eq a envKey net p hp hk hg]
    exact submitGeneration_requests _ net

/-- C3 witness: the theorem applied to concrete argument bags, once with
`generation_id="abc123"` (poll path) and once without (submit path). -/
theorem C3_mode_selection_witness :
    (handleGenerateAudio (some pollArgs) none okNet).2 =
      [mkPollRequest "abc123" ((resolveApiKey pollArgs none).getD "")] ∧
    (handleGenerateAudio (some submitArgs) none okNet).2 =
      [mkSubmitRequest (normParams submitArgs none)] :=
  ⟨((C3_mode_selection pollArgs none okNet "x" rfl rfl).1 "abc123" rfl
      (by decide)).1,
   ((C3_mode_selection submitArgs none okNet "test song" rfl rfl).2 rfl).1⟩

/-- C5: the Authorization header of both remote requests is built by
`authHeader`, which returns the key itself when it already starts with
the string Bearer-plus-space and prepends that string otherwise; the
result always starts with it, and it starts with a doubled occurrence
exactly when the key itself already did (so no duplication is ever
introduced). -/
theorem C5_authorization_header (k g : String) (params : AudioGenerationParams) :
    (mkPollRequest g k).authorization = authHeader k ∧
    (mkSubmitRequest params).authorization = authHeader params.api_key ∧
    (jsStartsWith k "Bearer " = true → authHeader k = k) ∧
    (jsStartsWith k "Bearer " = false → authHeader k = "Bearer " ++ k) ∧
    jsStartsWith (authHeader k) "Bearer " = true ∧
    jsStartsWith (authHeader k) "Bearer Bearer " = jsStartsWith k "Bearer Bearer " := by
  have hdata : ("Bearer Bearer " : String).data =
      ("Bearer " : String).data ++ ("Bearer " : String).data := rfl
  refine ⟨rfl, rfl, ?_, ?_, ?_, ?_⟩
  · intro h
    simp [authHeader, h]
  · intro h
    simp [authHeader, h]
  · by_cases h : jsStartsWith k "Bearer " = true
    · simp [authHeader, h]
    · have ha : authHeader k = "Bearer " ++ k := by simp [authHeader, h]
      rw [ha]
      exact jsStartsWith_append "Bearer " k
  · by_cases h : jsStartsWith k "Bearer " = true
    · simp [authHeader, h]
    · have hfalse : jsStartsWith k "Bearer " = false := by simpa using h
      have ha : authHeader k = "Bearer " ++ k := by simp [authHeader, h]
      have hL : jsStartsWith ("Bearer " ++ k) "Bearer Bearer " = false := by
        show listIsPre ("Bearer Bearer " : String).data ("Bearer " ++ k).data = false
        rw [hdata, string_data_append, listIsPre_append_both]
        exact hfalse
      have hR : jsStartsWith k "Bearer Bearer " = false := by
        by_contra hc
        rw [Bool.not_eq_false] at hc
        have hc2 : listIsPre (("Bearer " : String).data ++ ("Bearer " : String).data)
            k.data = true := by
          rw [← hdata]
          exact hc
        have h3 := listIsPre_of_append ("Bearer " : String).data
          ("Bearer " : String).data k.data hc2
        rw [show listIsPre ("Bearer " : String).data k.data =
          jsStartsWith k "Bearer " from rfl, hfalse] at h3
        exact Bool.noConfusion h3
      rw [ha, hL, hR]

/-- C5 witness: the header equations at a key already carrying the prefix
and at a bare key. -/
theorem C5_authorization_header_witness :
    authHeader "Bearer xyz" = "Bearer xyz" ∧
    authHeader "xyz" = "Bearer " ++ "xyz" :=
  ⟨(C5_authorization_header "Bearer xyz" "g" sampleParams).2.2.1 rfl,
   (C5_authorization_header "xyz" "g" sampleParams).2.2.2.1 rfl⟩

/-- C6: the submission payload contains `reference_audio_url` exactly when
the normalized model is minimax-music; for any other model the key is
omitted even if the caller supplied a value, and for minimax-music with no
caller-supplied value it is the fixed default URL. -/
theorem C6_reference_audio_url (a : Args) (envKey : Option String)
    (net : HttpRequest → HttpResponse) (p : String)
    (hp : a.prompt = some p) (hk : truthy (resolveApiKey a envKey) = true)
    (hg : truthy a.generation_id = false) :
    (handleGenerateAudio (some a) envKey net).2 =
      [mkSubmitRequest (normParams a envKey)] ∧
    ((mkPayload (normParams a envKey)).reference_audio_url.isSome =
      ((normParams a envKey).model == some "minimax-music")) ∧
    ((normParams a envKey).model ≠ some "minimax-music" →
      (mkPayload (normParams a envKey)).reference_audio_url = none) ∧
    ((normParams a envKey).model = some "minimax-music" →
      a.reference_audio_url = none →
      (mkPayload (normParams a envKey)).reference_audio_url =
        some defaultReferenceAudioUrl) := by
  refine ⟨?_, ?_, ?_, ?_⟩
  · rw [handle_submit_eq a envKey net p hp hk hg]
    exact submitGeneration_requests _ net
  · by_cases hm : (normParams a envKey).model = some "minimax-music"
    · simp [mkPayload, hm]
    · simp [mkPayload, hm]
  · intro hm
    simp [mkPayload, hm]
  · intro hm hr
    have hnr : (normParams a envKey).reference_audio_url = none := by
      simp [normParams, normalizeParams, hr, truthy]
    simp [mkPayload, hm, hnr, jsOr]

/-- C6 witness: the theorem applied to a concrete minimax-music submission
with no caller-supplied reference audio URL: the payload carries the fixed
default. -/
theorem C6_reference_audio_url_witness :
    (mkPayload (normParams submitArgs none)).reference_audio_url =
      some defaultReferenceAudioUrl :=
  (C6_reference_audio_url submitArgs none okNet "test song" rfl rfl rfl).2.2.2 rfl rfl

/-- C7: the API key resolves to the input-provided key when one is present
(truthy), otherwise to the process-wide fallback; when the resolved key is
unavailable the handler fails with the MissingCredential error before any
network call. -/
theorem C7_api_key_resolution (a : Args) (envKey : Option String)
    (net : HttpRequest → HttpResponse) (p : String) (hp : a.prompt = some p) :
    (truthy a.api_key = true → resolveApiKey a envKey = a.api_key) ∧
    (truthy a.api_key = false → resolveApiKey a envKey = envKey) ∧
    (truthy (resolveApiKey a envKey) = false →
      handleGenerateAudio (some a) envKey net =
        (Except.error apiKeyNotFoundError, [])) := by
  refine ⟨?_, ?_, ?_⟩
  · intro h
    simp [resolveApiKey, h]
  · intro h
    simp [resolveApiKey, h]
  · intro h
    exact handle_key_unavailable a envKey net p hp h

/-- C7 witness: with no input key and no configured fallback, the handler
fails with the MissingCredential error and issues no request. -/
theorem C7_api_key_resolution_witness :
    handleGenerateAudio (some noKeyArgs) none okNet =
      (Except.error apiKeyNotFoundError, []) :=
  (C7_api_key_resolution noKeyArgs none okNet "x" rfl).2.2 rfl

/-- C8: when the remote response has a non-success HTTP status `s`, the
invocation fails with the RemoteRequestFailed error whose message text ends
with (hence includes) the status number, and no result is returned — on the
poll path and on the submit path alike. -/
theorem C8_remote_http_failure (a : Args) (envKey : Option String)
    (net : HttpRequest → HttpResponse) (p : String) (s : Nat) (b : Json)
    (hp : a.prompt = some p) (hk : truthy (resolveApiKey a envKey) = true)
    (hnet : ∀ r, net r = { ok := false, status := s, body := b }) :
    (∀ g, a.generation_id = some g → g ≠ "" →
      handleGenerateAudio (some a) envKey net =
        (Except.error
          { code := ErrorCode.invalidRequest
            message := "Failed to check generation status: HTTP " ++ toString s },
         [mkPollRequest g ((resolveApiKey a envKey).getD "")])) ∧
    (truthy a.generation_id = false →
      handleGenerateAudio (some a) envKey net =
        (Except.error
          { code := ErrorCode.invalidRequest
            message := "Failed to generate audio: HTTP " ++ toString s },
         [mkSubmitRequest (normParams a envKey)])) ∧
    jsEndsWith ("Failed to check generation status: HTTP " ++ toString s)
      (toString s) = true ∧
    jsEndsWith ("Failed to generate audio: HTTP " ++ toString s)
      (toString s) = true := by
  refine ⟨?_, ?_, jsEndsWith_append _ _, jsEndsWith_append _ _⟩
  · intro g hg hgne
    rw [handle_poll_eq a envKey net p g hp hk hg hgne]
    unfold pollGeneration
    rw [checkGenerationStatus_http_error g _ net s b hnet]
  · intro hg
    rw [handle_submit_eq a envKey net p hp hk hg]
    exact submitGeneration_http_error _ net s b hnet

/-- C8 witness: the theorem applied to a concrete submission against a
network that answers HTTP 500. -/
theorem C8_remote_http_failure_witness :
    handleGenerateAudio (some submitArgs) none failNet =
      (Except.error
        { code := ErrorCode.invalidRequest
          message := "Failed to generate audio: HTTP " ++ toString 500 },
       [mkSubmitRequest (normParams submitArgs none)]) :=
  (C8_remote_http_failure submitArgs none failNet "test song" 500 Json.null
    rfl rfl (fun _ => rfl)).2.1 rfl

/-- C9: after a successful remote call (submit or poll) the decoded body is
required to be a truthy object carrying both the `status` and `id` keys;
for an object the check is exactly the presence of those two keys (no type
constraint on the values), a failing body makes the invocation fail with
the InvalidRemoteResponse error, and the body consisting only of a `foo`
key fails the check. -/
theorem C9_response_validation (a : Args) (envKey : Option String)
    (net : HttpRequest → HttpResponse) (p : String) (resp : HttpResponse)
    (hp : a.prompt = some p) (hk : truthy (resolveApiKey a envKey) = true)
    (hok : resp.ok = true) (hbad : validShape resp.body = false)
    (hnet : ∀ r, net r = resp) :
    (handleGenerateAudio (some a) envKey net).1 = Except.error invalidResponseError ∧
    (∀ fields, validShape (Json.obj fields) =
      (hasKey (Json.obj fields) "status" && hasKey (Json.obj fields) "id")) ∧
    validShape (Json.obj [("foo", Json.num 1)]) = false := by
  refine ⟨?_, ?_, rfl⟩
  · cases hgid : a.generation_id with
    | none =>
      have hg : truthy a.generation_id = false := by simp [truthy, hgid]
      rw [handle_submit_eq a envKey net p hp hk hg,
        submitGeneration_invalid_shape _ net resp hok hbad hnet]
    | some g =>
      by_cases hgne : g = ""
      · have hg : truthy a.generation_id = false := by simp [truthy, hgid, hgne]
        rw [handle_submit_eq a envKey net p hp hk hg,
          submitGeneration_invalid_shape _ net resp hok hbad hnet]
      · rw [handle_poll_eq a envKey net p g hp hk hgid hgne,
          pollGeneration_invalid_shape g _ net resp hok hbad hnet]
  · intro fields
    simp [validShape, jsTruthyJson, jsIsObjectType]

/-- C9 witness: a concrete submission whose remote body is the object with
only a `foo` key fails with the InvalidRemoteResponse error. -/
theorem C9_response_validation_witness :
    (handleGenerateAudio (some submitArgs) none badShapeNet).1 =
      Except.error invalidResponseError :=
  (C9_response_validation submitArgs none badShapeNet "test song"
    { ok := true, status := 200, body := Json.obj [("foo", Json.num 1)] }
    rfl rfl rfl rfl (fun _ => rfl)).1

/-- C10: an empty-string `api_key` in the input is ignored: the key
resolves to the process-wide fallback, the handler fails with the
MissingCredential error when that fallback is absent, and every request it
ever issues carries an Authorization header built from the (truthy)
fallback key, never from the empty input string. -/
theorem C10_empty_api_key (a : Args) (envKey : Option String)
    (net : HttpRequest → HttpResponse) (p : String)
    (hp : a.prompt = some p) (hempty : a.api_key = some "") :
    resolveApiKey a envKey = envKey ∧
    (envKey = none → handleGenerateAudio (some a) envKey net =
      (Except.error apiKeyNotFoundError, [])) ∧
    (∀ r ∈ (handleGenerateAudio (some a) envKey net).2,
      truthy envKey = true ∧ r.authorization = authHeader (envKey.getD "")) := by
  have hres : resolveApiKey a envKey = envKey := by
    simp [resolveApiKey, hempty, truthy]
  refine ⟨hres, ?_, ?_⟩
  · intro henv
    apply handle_key_unavailable a envKey net p hp
    rw [hres, henv]
    rfl
  · intro r hr
    by_cases htr : truthy envKey = true
    · have hk : truthy (resolveApiKey a envKey) = true := by
        rw [hres]
        exact htr
      refine ⟨htr, ?_⟩
      cases hgid : a.generation_id with
      | none =>
        have hg : truthy a.generation_id = false := by simp [truthy, hgid]
        rw [handle_submit_eq a envKey net p hp hk hg, submitGeneration_requests] at hr
        rcases List.mem_singleton.mp hr with h
        rw [h]
        show authHeader (normParams a envKey).api_key = authHeader (envKey.getD "")
        rw [show (normParams a envKey).api_key =
          (resolveApiKey a envKey).getD "" from rfl, hres]
      | some g =>
        by_cases hgne : g = ""
        · have hg : truthy a.generation_id = false := by simp [truthy, hgid, hgne]
          rw [handle_submit_eq a envKey net p hp hk hg, submitGeneration_requests] at hr
          rcases List.mem_singleton.mp hr with h
          rw [h]
          show authHeader (normParams a envKey).api_key = authHeader (envKey.getD "")
          rw [show (normParams a envKey).api_key =
            (resolveApiKey a envKey).getD "" from rfl, hres]
        · rw [handle_poll_eq a envKey net p g hp hk hgid hgne,
            pollGeneration_requests] at hr
          rcases List.mem_singleton.mp hr with h
          rw [h]
          show authHeader ((resolveApiKey a envKey).getD "") = authHeader (envKey.getD "")
          rw [hres]
    · have hk : truthy (resolveApiKey a envKey) = false := by
        rw [hres]
        simpa using htr
      rw [handle_key_unavailable a envKey net p hp hk] at hr
      simp at hr

/-- C10 witness: with a present-but-empty input key the resolution falls
back to the configured key, and with no configured key the handler fails
with the MissingCredential error. -/
theorem C10_empty_api_key_witness :
    resolveApiKey emptyKeyArgs (some "envk") = some "envk" ∧
    handleGenerateAudio (some emptyKeyArgs) none okNet =
      (Except.error apiKeyNotFoundError, []) :=
  ⟨(C10_empty_api_key emptyKeyArgs (some "envk") okNet "x" rfl rfl).1,
   (C10_empty_api_key emptyKeyArgs none okNet "x" rfl rfl).2.1 rfl⟩

end MinimaxMusic
